import Mathlib

/-!
Verification of the `auto_areas` presence-aggregation component
(`custom_components/auto_areas/auto_area.py`).

The embedding is shallow: the registry lookups and snapshot queries of the
host platform are passed as explicit functions, Python `Optional` values are
`Option`, a raised exception (`KeyError` on a dict subscript, `AttributeError`
on reading a field of `None`) is `Except.error ()`, and a Python `str` object
is modelled as its text together with an object identity, so that the `is`
operator of the source can be rendered faithfully.

The fixed policy constants of `const.py` (`PRESENCE_BINARY_SENSOR_STATES`,
`PRESENCE_BINARY_SENSOR_DEVICE_CLASSES`, `DOMAINS`) are parameters of the
definitions: every theorem holds for any choice of these lists.
-/

set_option linter.unusedVariables false

namespace AutoAreas

/-- A Python `str` object: its text value together with an object identity
(the CPython `id`). Two distinct objects may carry equal text. -/
structure PyStr where
  val : String
  oid : Nat
deriving DecidableEq, Repr

/-- Python `is` applied to two string references compares object identity,
never the text. -/
def py_is (a b : PyStr) : Bool := a.oid == b.oid

/-- The interned `""` object produced by the literal in
`previous_state = from_state.state if from_state else ""`. -/
def interned_empty : PyStr := ⟨"", 0⟩

/-- A state snapshot object; the source reads only its `.state` token. -/
structure State where
  state : PyStr
deriving DecidableEq, Repr

/-- An entity registry entry, with exactly the fields `auto_area.py` reads. -/
structure RegistryEntry where
  entity_id : String
  domain : String
  device_class : Option String
  original_device_class : Option String
  area_id : Option String
  device_id : Option String
  disabled : Bool
deriving DecidableEq, Repr

/-- A device registry entry; only its `area_id` is read. -/
structure Device where
  area_id : Option String
deriving DecidableEq, Repr

/-- Python truthiness of an `Optional[str]`: `None` and `""` are falsy,
every other string is truthy. -/
def py_truthy : Option String → Bool
  | none => false
  | some s => !(s == "")

/-- `is_valid`: an entity is included unless it is disabled. -/
def is_valid (entity : RegistryEntry) : Bool := !entity.disabled

/-- `get_area_id`: the entity's own `area_id` when present; otherwise the
`area_id` of its referenced device. The device is fetched with a dict
subscript `device_registry.devices[entity.device_id]`, so a missing device
raises `KeyError`, modelled as `Except.error ()`; the subsequent
`if device is not None` check of the source is unreachable for a missing key.
An entity with neither field yields `None`. -/
def get_area_id (entity : RegistryEntry)
    (device_registry : String → Option Device) : Except Unit (Option String) :=
  match entity.area_id with
  | some a => Except.ok (some a)
  | none =>
    match entity.device_id with
    | some did =>
      match device_registry did with
      | some device => Except.ok device.area_id
      | none => Except.error ()
    | none => Except.ok none

/-- `get_all_entities`: iterate the entity registry in order, keeping the
entities that pass `is_valid`, whose `get_area_id` equals the target area
and whose domain is accepted. A `KeyError` escaping `get_area_id`
propagates out of the whole iteration. -/
def get_all_entities (entity_registry : List RegistryEntry)
    (device_registry : String → Option Device) (area_id : String)
    (domains : List String) : Except Unit (List RegistryEntry) :=
  match entity_registry with
  | [] => Except.ok []
  | entity :: rest =>
    if !(is_valid entity) then
      get_all_entities rest device_registry area_id domains
    else
      match get_area_id entity device_registry with
      | Except.error u => Except.error u
      | Except.ok aid =>
        if !(aid == some area_id) then
          get_all_entities rest device_registry area_id domains
        else if !(domains.contains entity.domain) then
          get_all_entities rest device_registry area_id domains
        else
          (get_all_entities rest device_registry area_id domains).map
            (fun l => entity :: l)

/-- The area an entity resolves to, written out as the spec states the rule:
its own area identifier when present, else the area identifier of its
referenced device, else none. Stated for comparison with `get_area_id`. -/
def resolved_area (entity : RegistryEntry)
    (device_registry : String → Option Device) : Option String :=
  match entity.area_id with
  | some a => some a
  | none =>
    match entity.device_id with
    | some did => (device_registry did).bind Device.area_id
    | none => none

/-- `all_states_are_off`: fetch each tracked sensor's live snapshot
(`hass.states.get`), drop the unavailable ones (`filter(None, ...)`), and
check that every remaining token is outside the active set. -/
def all_states_are_off (active : List String) (snap : String → Option String)
    (sensors : List String) : Bool :=
  (sensors.filterMap snap).all (fun s => !(active.contains s))

/-- The token the handler takes as previous state:
`from_state.state if from_state else ""`. -/
def previous_token : Option State → PyStr
  | some s => s.state
  | none => interned_empty

/-- `handle_presence_state_change`: the subscription callback. A `None`
`to_state` raises `AttributeError` when `.state` is read. The duplicate
filter is `previous_state is current_state` — object identity. An active
`to_state` token sets presence; an inactive one clears presence only when
`all_states_are_off` over every tracked sensor holds. The returned `Bool`
is the value of `self.presence` after the call. -/
def handle_presence_state_change (active : List String)
    (snap : String → Option String) (sensors : List String) (presence : Bool)
    (entity_id : String) (from_state : Option State)
    (to_state : Option State) : Except Unit Bool :=
  match to_state with
  | none => Except.error ()
  | some ts =>
    if py_is (previous_token from_state) ts.state then Except.ok presence
    else if active.contains ts.state.val then
      Except.ok (if !presence then true else presence)
    else if all_states_are_off active snap sensors then
      Except.ok (if presence then false else presence)
    else Except.ok presence

/-- The initial derivation
`self.presence = False if all_states_are_off(...) else True`. -/
def initial_presence (active : List String) (snap : String → Option String)
    (sensors : List String) : Bool :=
  if all_states_are_off active snap sensors then false else true

/-- The presence-indicating filter exactly as coded:
`entity.device_class or entity.original_device_class in ALLOW‑LIST`, with
the membership test on `device_class` left commented out, so any truthy
`device_class` passes. -/
def is_presence_indicating (allow : List String)
    (entity : RegistryEntry) : Bool :=
  py_truthy entity.device_class ||
    (match entity.original_device_class with
     | some c => allow.contains c
     | none => false)

/-- `track_presence_sensor_state` outcome: the resulting `self.presence`
and whether a state-change subscription was registered. With no
presence-indicating entities the function returns early: presence keeps its
prior value and no subscription is created. Otherwise presence is derived
from the snapshots and the subscription is installed. -/
def track_presence_sensor_state (allow active : List String)
    (snap : String → Option String) (entities : List RegistryEntry)
    (presence0 : Bool) : Bool × Bool :=
  let pies := entities.filter (is_presence_indicating allow)
  if pies.isEmpty then (presence0, false)
  else (initial_presence active snap (pies.map RegistryEntry.entity_id), true)

/-- The mutable per-area state of `AutoArea`: identity fields, the presence
flag, the resolved entity set, and the tracked sensor list closed over by
the handler. -/
structure AreaState where
  area_id : String
  area_name : String
  presence : Bool
  entities : List RegistryEntry
  tracked : List String
deriving DecidableEq, Repr

/-- One state-change event applied to an `AreaState`: the handler runs on
the tracked list and current presence, and the only field it assigns is
`self.presence`. -/
def handle_event (active : List String) (snap : String → Option String)
    (st : AreaState) (entity_id : String)
    (from_state to_state : Option State) : Except Unit AreaState :=
  (handle_presence_state_change active snap st.tracked st.presence entity_id
      from_state to_state).map (fun p => { st with presence := p })

/-- `all_states_are_off` holds exactly when every retrievable snapshot of a
tracked sensor is outside the active set. -/
theorem all_states_are_off_iff (active : List String)
    (snap : String → Option String) (sensors : List String) :
    all_states_are_off active snap sensors = true ↔
      ∀ e ∈ sensors, ∀ s, snap e = some s → active.contains s = false := by
  unfold all_states_are_off
  rw [List.all_eq_true]
  constructor
  · intro h e he s hs
    have hmem : s ∈ sensors.filterMap snap :=
      List.mem_filterMap.mpr ⟨e, he, hs⟩
    simpa using h s hmem
  · intro h s hs
    obtain ⟨e, he, hse⟩ := List.mem_filterMap.mp hs
    simpa using h e he s hse

/-- A demonstration allow-list of presence-capable device classes. -/
def allow_demo : List String := ["motion", "occupancy", "presence"]

/-- An enabled humidity sensor: non-empty device class outside the
allow-list. -/
def e_humidity : RegistryEntry :=
  ⟨"sensor.h1", "sensor", some "humidity", none, some "a1", none, false⟩

/-- An enabled switch with no device class at all. -/
def e_plain : RegistryEntry :=
  ⟨"switch.s1", "switch", none, none, some "a1", none, false⟩

/-- An entity with no own area that references a device id absent from the
device registry. -/
def e_dangling : RegistryEntry :=
  ⟨"light.l1", "light", none, none, none, some "d1", false⟩

/-- C5: `"humidity"` is not in the allow-list, yet the filter as coded
selects the humidity sensor, because the truthiness of `device_class`
short-circuits the membership test that the source left commented out. -/
theorem nonallowlisted_class_selected :
    allow_demo.contains "humidity" = false ∧
      is_presence_indicating allow_demo e_humidity = true ∧
      [e_humidity].filter (is_presence_indicating allow_demo) =
        [e_humidity] := by
  refine ⟨rfl, rfl, rfl⟩

/-- C6: an `on → on` event whose two tokens are equal strings but distinct
objects slips past the identity-based duplicate filter
(`previous_state is current_state`) and flips presence from false to true,
so `handleStateChange(id, X, X)` can change presence. -/
theorem duplicate_event_changes_presence :
    (⟨"on", 1⟩ : PyStr).val = (⟨"on", 2⟩ : PyStr).val ∧
      handle_presence_state_change ["on"] (fun _ => some "on") ["m1"] false
        "m1" (some ⟨⟨"on", 1⟩⟩) (some ⟨⟨"on", 2⟩⟩) = Except.ok true := by
  refine ⟨rfl, rfl⟩

/-- C7: resolving the area of an entity whose referenced device is missing
from the device registry raises `KeyError` (the dict subscript) instead of
yielding no area. -/
theorem missing_device_raises :
    get_area_id e_dangling (fun _ => none) = Except.error () := rfl

/-- C8: when the filtered entity set contains zero presence-indicating
sensors, `track_presence_sensor_state` returns early: presence stays at its
`__init__` default `false` and no subscription is registered. -/
theorem empty_sensor_set (allow active : List String)
    (snap : String → Option String) (entities : List RegistryEntry)
    (h : entities.filter (is_presence_indicating allow) = []) :
    track_presence_sensor_state allow active snap entities false =
      (false, false) := by
  unfold track_presence_sensor_state
  simp [h]

/-- C8 witness: a registry holding one entity with no device class has no
presence-indicating sensor, so presence stays false and nothing subscribes. -/
theorem empty_sensor_set_witness :
    [e_plain].filter (is_presence_indicating allow_demo) = [] ∧
      track_presence_sensor_state allow_demo ["on"] (fun _ => some "on")
        [e_plain] false = (false, false) :=
  ⟨rfl, empty_sensor_set allow_demo ["on"] (fun _ => some "on") [e_plain] rfl⟩

/-- Unfolding equation of the handler on a present `to_state`. -/
theorem handle_some_eq (active : List String) (snap : String → Option String)
    (sensors : List String) (presence : Bool) (entity_id : String)
    (from_state : Option State) (ts : State) :
    handle_presence_state_change active snap sensors presence entity_id
        from_state (some ts) =
      if py_is (previous_token from_state) ts.state then Except.ok presence
      else if active.contains ts.state.val then
        Except.ok (if !presence then true else presence)
      else if all_states_are_off active snap sensors then
        Except.ok (if presence then false else presence)
      else Except.ok presence := rfl

/-- C9: the handler tolerates an absent `from_state` (it becomes the empty
token) but an absent `to_state` raises `AttributeError` when `.state` is
read: the handler is total in `from_state` and partial in `to_state`. -/
theorem handler_null_tolerance (active : List String)
    (snap : String → Option String) (sensors : List String) (presence : Bool)
    (entity_id : String) (from_state : Option State) :
    handle_presence_state_change active snap sensors presence entity_id
        from_state none = Except.error () ∧
      ∀ ts : State, ∃ b : Bool,
        handle_presence_state_change active snap sensors presence entity_id
          from_state (some ts) = Except.ok b := by
  refine ⟨rfl, fun ts => ?_⟩
  rw [handle_some_eq]
  by_cases h1 : py_is (previous_token from_state) ts.state = true
  · exact ⟨presence, by rw [if_pos h1]⟩
  · by_cases h2 : active.contains ts.state.val = true
    · exact ⟨if !presence then true else presence,
        by rw [if_neg h1, if_pos h2]⟩
    · by_cases h3 : all_states_are_off active snap sensors = true
      · exact ⟨if presence then false else presence,
          by rw [if_neg h1, if_neg h2, if_pos h3]⟩
      · exact ⟨presence, by rw [if_neg h1, if_neg h2, if_neg h3]⟩

/-- A snapshot source on which sensor `m1` is still active and everything
else reads `"off"`. -/
def snap_demo : String → Option String :=
  fun e => if e == "m1" then some "on" else some "off"

/-- C1 (sticky clear): on an event whose `to_state` token is outside the
active set, if presence is true and some tracked sensor's re-fetched
snapshot is still active, presence stays true; and the handler yields false
only when the re-check finds every retrievable snapshot inactive. -/
theorem sticky_clear (active : List String) (snap : String → Option String)
    (sensors : List String) (presence : Bool) (entity_id : String)
    (from_state : Option State) (ts : State)
    (h_inactive : active.contains ts.state.val = false) :
    (presence = true →
      (∃ e ∈ sensors, ∃ s, snap e = some s ∧ active.contains s = true) →
      handle_presence_state_change active snap sensors presence entity_id
        from_state (some ts) = Except.ok true)
    ∧ (presence = true →
      handle_presence_state_change active snap sensors presence entity_id
        from_state (some ts) = Except.ok false →
      ∀ e ∈ sensors, ∀ s, snap e = some s → active.contains s = false) := by
  have hoff : ∀ e ∈ sensors, ∀ s, snap e = some s →
      active.contains s = true →
      all_states_are_off active snap sensors = false := by
    intro e he s hs hact
    cases hb : all_states_are_off active snap sensors with
    | false => rfl
    | true =>
      have hcontra :=
        (all_states_are_off_iff active snap sensors).mp hb e he s hs
      rw [hcontra] at hact
      exact absurd hact (by decide)
  constructor
  · rintro hp ⟨e, he, s, hs, hact⟩
    rw [handle_some_eq]
    by_cases h1 : py_is (previous_token from_state) ts.state = true
    · rw [if_pos h1, hp]
    · rw [if_neg h1, if_neg (by rw [h_inactive]; decide),
        if_neg (by rw [hoff e he s hs hact]; decide), hp]
  · intro hp heq e he s hs
    rw [handle_some_eq] at heq
    by_cases h1 : py_is (previous_token from_state) ts.state = true
    · rw [if_pos h1, hp] at heq
      simp at heq
    · rw [if_neg h1, if_neg (show ¬(active.contains ts.state.val = true)
          by rw [h_inactive]; decide)] at heq
      by_cases h3 : all_states_are_off active snap sensors = true
      · exact (all_states_are_off_iff active snap sensors).mp h3 e he s hs
      · rw [if_neg h3, hp] at heq
        simp at heq

/-- C1 witness: presence is true, `m2` clears to `"off"` while `m1`'s
snapshot is still `"on"`, so presence stays true. -/
theorem sticky_clear_witness :
    (["on"].contains (State.state ⟨⟨"off", 5⟩⟩).val = false) ∧
      handle_presence_state_change ["on"] snap_demo ["m1", "m2"] true "m2"
        (some ⟨⟨"on", 3⟩⟩) (some ⟨⟨"off", 5⟩⟩) = Except.ok true := by
  refine ⟨by decide, ?_⟩
  exact (sticky_clear ["on"] snap_demo ["m1", "m2"] true "m2"
      (some ⟨⟨"on", 3⟩⟩) ⟨⟨"off", 5⟩⟩ (by decide)).1 rfl
    ⟨"m1", by decide, "on", rfl, by decide⟩

/-- C2 (rising edge): on an event whose from-token differs from its
to-token (so, the two being honest Python string objects, the identity
filter cannot fire) and whose to-token is active, a false presence becomes
true, for every snapshot source — no re-check of the other sensors. -/
theorem rising_edge (active : List String) (snap : String → Option String)
    (sensors : List String) (entity_id : String) (from_state : Option State)
    (ts : State)
    (h_ne : (previous_token from_state).val ≠ ts.state.val)
    (h_obj : (previous_token from_state).oid = ts.state.oid →
      (previous_token from_state).val = ts.state.val)
    (h_act : active.contains ts.state.val = true) :
    handle_presence_state_change active snap sensors false entity_id
      from_state (some ts) = Except.ok true := by
  rw [handle_some_eq]
  have h1 : py_is (previous_token from_state) ts.state = false := by
    cases hb : py_is (previous_token from_state) ts.state with
    | false => rfl
    | true =>
      have hoid : (previous_token from_state).oid = ts.state.oid := by
        unfold py_is at hb
        exact eq_of_beq hb
      exact absurd (h_obj hoid) h_ne
  rw [if_neg (by rw [h1]; decide), if_pos h_act]
  rfl

/-- C2 witness: `m1` goes `"off" → "on"` while presence is false; presence
becomes true even though the snapshot source still reports everything off. -/
theorem rising_edge_witness :
    ((previous_token (some ⟨⟨"off", 3⟩⟩)).val ≠
        (State.state ⟨⟨"on", 4⟩⟩).val) ∧
      handle_presence_state_change ["on"] (fun _ => some "off") ["m1"] false
        "m1" (some ⟨⟨"off", 3⟩⟩) (some ⟨⟨"on", 4⟩⟩) = Except.ok true := by
  refine ⟨by decide, ?_⟩
  exact rising_edge ["on"] (fun _ => some "off") ["m1"] "m1"
    (some ⟨⟨"off", 3⟩⟩) ⟨⟨"on", 4⟩⟩ (by decide) (by decide) (by decide)

/-- C3 (initial presence): the initially derived presence is false exactly
when every retrievable snapshot of a tracked sensor is outside the active
set; in particular it is false for an empty sensor list and when no
snapshot is retrievable — an unretrievable sensor is simply ignored. -/
theorem initial_presence_iff_all_off (active : List String)
    (snap : String → Option String) (sensors : List String) :
    (initial_presence active snap sensors = false ↔
      ∀ e ∈ sensors, ∀ s, snap e = some s → active.contains s = false)
    ∧ initial_presence active snap [] = false
    ∧ ((∀ e ∈ sensors, snap e = none) →
        initial_presence active snap sensors = false) := by
  have key : ∀ ss : List String, initial_presence active snap ss = false ↔
      all_states_are_off active snap ss = true := by
    intro ss
    unfold initial_presence
    by_cases h : all_states_are_off active snap ss = true
    · simp [h]
    · simp [h]
  refine ⟨?_, ?_, ?_⟩
  · rw [key]
    exact all_states_are_off_iff active snap sensors
  · rw [key]
    rfl
  · intro h
    rw [key]
    exact (all_states_are_off_iff active snap sensors).mpr
      (fun e he s hs => by rw [h e he] at hs; exact Option.noConfusion hs)

/-- C3 witness: one sensor whose snapshot is unavailable — initial presence
is false. -/
theorem initial_presence_witness :
    (∀ e ∈ ["m1"], (fun _ : String => (none : Option String)) e = none) ∧
      initial_presence ["on"] (fun _ : String => (none : Option String))
        ["m1"] = false := by
  refine ⟨fun e he => rfl, ?_⟩
  exact (initial_presence_iff_all_off ["on"]
      (fun _ : String => (none : Option String)) ["m1"]).2.2 (fun e he => rfl)

/-- When `get_area_id` returns normally, its value is exactly the
spec's resolution rule `resolved_area`. -/
theorem get_area_id_ok (entity : RegistryEntry)
    (device_registry : String → Option Device) (a : Option String)
    (h : get_area_id entity device_registry = Except.ok a) :
    resolved_area entity device_registry = a := by
  rcases entity with ⟨eid, dom, dc, odc, aid, did, dis⟩
  cases aid with
  | some x => simpa [get_area_id, resolved_area] using h
  | none =>
    cases did with
    | none => simpa [get_area_id, resolved_area] using h
    | some d =>
      cases hdev : device_registry d with
      | none => simp [get_area_id, hdev] at h
      | some device => simpa [get_area_id, resolved_area, hdev] using h

/-- An entity skipped by one filter step leaves the membership
characterisation intact. -/
theorem skip_case_iff {E entity : RegistryEntry}
    {rest l : List RegistryEntry} (P : RegistryEntry → Prop)
    (hiff : E ∈ l ↔ E ∈ rest ∧ P E) (hne : ¬ P entity) :
    E ∈ l ↔ E ∈ entity :: rest ∧ P E := by
  rw [hiff]
  constructor
  · rintro ⟨hmem, hp⟩
    exact ⟨List.mem_cons_of_mem _ hmem, hp⟩
  · rintro ⟨hmem, hp⟩
    rcases List.mem_cons.mp hmem with rfl | hmem2
    · exact absurd hp hne
    · exact ⟨hmem2, hp⟩

/-- An entity kept by the filter extends the membership characterisation. -/
theorem keep_case_iff {E entity : RegistryEntry}
    {rest l' : List RegistryEntry} (P : RegistryEntry → Prop)
    (hiff : E ∈ l' ↔ E ∈ rest ∧ P E) (hp : P entity) :
    E ∈ entity :: l' ↔ E ∈ entity :: rest ∧ P E := by
  rw [List.mem_cons, List.mem_cons, hiff]
  constructor
  · rintro (rfl | ⟨hm, hq⟩)
    · exact ⟨Or.inl rfl, hp⟩
    · exact ⟨Or.inr hm, hq⟩
  · rintro ⟨rfl | hm, hq⟩
    · exact Or.inl rfl
    · exact Or.inr ⟨hm, hq⟩

/-- C4 (membership resolution): when `get_all_entities` returns normally,
an entity is in the result exactly when it is in the registry, not
disabled, of an accepted domain, and resolves — directly or through its
device — to the target area. -/
theorem membership_resolution (entity_registry : List RegistryEntry)
    (device_registry : String → Option Device) (area_id : String)
    (domains : List String) (l : List RegistryEntry) (E : RegistryEntry)
    (h : get_all_entities entity_registry device_registry area_id domains =
      Except.ok l) :
    E ∈ l ↔ (E ∈ entity_registry ∧
      (E.disabled = false ∧ domains.contains E.domain = true ∧
        resolved_area E device_registry = some area_id)) := by
  induction entity_registry generalizing l with
  | nil =>
    unfold get_all_entities at h
    injection h with h
    subst h
    simp
  | cons entity rest ih =>
    unfold get_all_entities at h
    cases hd : entity.disabled with
    | true =>
      rw [is_valid, hd] at h
      simp only [Bool.not_true, Bool.not_false, if_pos] at h
      exact skip_case_iff
        (fun x => x.disabled = false ∧ domains.contains x.domain = true ∧
            resolved_area x device_registry = some area_id)
        (ih l h) (fun hp => by
          rw [hp.1] at hd
          exact Bool.noConfusion hd)
    | false =>
      rw [is_valid, hd] at h
      simp only [Bool.not_false, Bool.not_true, if_neg, Bool.false_eq_true,
        if_false] at h
      cases hga : get_area_id entity device_registry with
      | error u =>
        rw [hga] at h
        exact Except.noConfusion h
      | ok aid =>
        rw [hga] at h
        dsimp only [] at h
        have hres : resolved_area entity device_registry = aid :=
          get_area_id_ok entity device_registry aid hga
        cases hbeq : (aid == some area_id) with
        | false =>
          rw [hbeq] at h
          simp only [Bool.not_false, if_pos] at h
          exact skip_case_iff
            (fun x => x.disabled = false ∧ domains.contains x.domain = true ∧
            resolved_area x device_registry = some area_id)
            (ih l h) (fun hp => by
              have haid : aid = some area_id := hres ▸ hp.2.2
              rw [haid] at hbeq
              simp at hbeq)
        | true =>
          rw [hbeq] at h
          simp only [Bool.not_true, Bool.false_eq_true, if_false] at h
          have haid : aid = some area_id := by
            exact eq_of_beq hbeq
          cases hdom : domains.contains entity.domain with
          | false =>
            rw [hdom] at h
            simp only [Bool.not_false, if_pos] at h
            exact skip_case_iff
              (fun x => x.disabled = false ∧ domains.contains x.domain = true ∧
            resolved_area x device_registry = some area_id)
              (ih l h) (fun hp => by
                rw [hp.2.1] at hdom
                exact Bool.noConfusion hdom)
          | true =>
            rw [hdom] at h
            simp only [Bool.not_true, Bool.false_eq_true, if_false] at h
            cases hrec : get_all_entities rest device_registry area_id
                domains with
            | error u =>
              rw [hrec] at h
              simp [Except.map] at h
            | ok l2 =>
              rw [hrec] at h
              simp only [Except.map, Except.ok.injEq] at h
              subst h
              exact keep_case_iff
                (fun x => x.disabled = false ∧ domains.contains x.domain = true ∧
            resolved_area x device_registry = some area_id)
                (ih l2 hrec) ⟨hd, hdom, hres.trans haid⟩

/-- An enabled motion sensor assigned directly to area `"a1"`. -/
def e_kitchen : RegistryEntry :=
  ⟨"binary_sensor.m1", "binary_sensor", some "motion", none, some "a1",
    none, false⟩

/-- A disabled motion sensor in the same area with a matching domain. -/
def e_disabled : RegistryEntry :=
  ⟨"binary_sensor.m2", "binary_sensor", some "motion", none, some "a1",
    none, true⟩

/-- C4 witness: a two-entity registry where the disabled sensor is dropped
and the enabled one is kept, matching the characterisation. -/
theorem membership_resolution_witness :
    (get_all_entities [e_kitchen, e_disabled] (fun _ => none) "a1"
        ["binary_sensor"] = Except.ok [e_kitchen]) ∧
      (e_kitchen ∈ [e_kitchen] ↔ (e_kitchen ∈ [e_kitchen, e_disabled] ∧
        (e_kitchen.disabled = false ∧
          (["binary_sensor"].contains e_kitchen.domain = true) ∧
          resolved_area e_kitchen (fun _ => none) = some "a1"))) := by
  refine ⟨rfl, ?_⟩
  exact membership_resolution [e_kitchen, e_disabled] (fun _ => none) "a1"
    ["binary_sensor"] [e_kitchen] e_kitchen rfl

/-- C10 (frame property): whenever the event step returns normally, only
the presence flag may have changed: area identity, the resolved entity set
and the tracked sensor list are those of the incoming state. -/
theorem handler_frame (active : List String) (snap : String → Option String)
    (st st2 : AreaState) (entity_id : String)
    (from_state to_state : Option State)
    (h : handle_event active snap st entity_id from_state to_state =
      Except.ok st2) :
    st2.area_id = st.area_id ∧ st2.area_name = st.area_name ∧
      st2.entities = st.entities ∧ st2.tracked = st.tracked := by
  unfold handle_event at h
  cases hh : handle_presence_state_change active snap st.tracked st.presence
      entity_id from_state to_state with
  | error u =>
    rw [hh] at h
    simp [Except.map] at h
  | ok p =>
    rw [hh] at h
    simp only [Except.map, Except.ok.injEq] at h
    subst h
    exact ⟨rfl, rfl, rfl, rfl⟩

/-- The Kitchen area before and after an occupancy event. -/
def st_kitchen : AreaState :=
  ⟨"a1", "Kitchen", false, [e_kitchen], ["binary_sensor.m1"]⟩

/-- The Kitchen area with presence set. -/
def st_kitchen_occupied : AreaState :=
  ⟨"a1", "Kitchen", true, [e_kitchen], ["binary_sensor.m1"]⟩

/-- C10 witness: an `off → on` event flips presence and touches nothing
else of the area state. -/
theorem handler_frame_witness :
    (handle_event ["on"] (fun _ => some "on") st_kitchen "binary_sensor.m1"
        (some ⟨⟨"off", 7⟩⟩) (some ⟨⟨"on", 8⟩⟩) =
      Except.ok st_kitchen_occupied) ∧
      (st_kitchen_occupied.area_id = st_kitchen.area_id ∧
        st_kitchen_occupied.area_name = st_kitchen.area_name ∧
        st_kitchen_occupied.entities = st_kitchen.entities ∧
        st_kitchen_occupied.tracked = st_kitchen.tracked) := by
  refine ⟨rfl, ?_⟩
  exact handler_frame ["on"] (fun _ => some "on") st_kitchen
    st_kitchen_occupied "binary_sensor.m1" (some ⟨⟨"off", 7⟩⟩)
    (some ⟨⟨"on", 8⟩⟩) rfl

end AutoAreas
